import Mathlib

/-!
Shallow embedding of the cronhost TypeScript SDK (src/index.ts) and proofs
about its specified behaviour.

The SDK is a thin HTTP client.  We embed:
  * a JSON value model with a parser (modelling the platform `JSON.parse`)
    and a serializer (modelling `JSON.stringify`);
  * the private `request` routine (src/index.ts lines 115-190) as a pure
    function from a transport outcome (either a thrown transport error or a
    received response) to `Except JsError Json`;
  * `createSchedule` (lines 205-249), `updateSchedule` (lines 251-268) and
    `getJobs` (lines 298-311) as pure functions producing the HTTP request
    each method would issue (endpoint, method, body) or a locally thrown
    error.

Modelling notes, applied consistently below:
  * JavaScript numbers in JSON bodies are modelled as `Int`; a fractional
    or exponent part is accepted by the parser but only the integer part is
    retained.  No claim under verification involves non-integer numerics.
  * `JSON.stringify` omits object properties whose value is `undefined`;
    request-body builders below therefore include an optional property
    exactly when the source value is present.
  * `URLSearchParams.toString` percent-encoding is not modelled; values in
    all statements below consist of unreserved characters, for which the
    encoding is the identity.
-/

namespace Cronhost

/-- JSON values, as produced by `JSON.parse` and consumed by
`JSON.stringify`.  Numbers are modelled as integers (see module comment). -/
inductive Json where
  | null
  | bool (b : Bool)
  | num (n : Int)
  | str (s : String)
  | arr (xs : List Json)
  | obj (fields : List (String × Json))
deriving Repr, BEq

namespace Json

/-- Property access `v?.k` on a possibly-absent JavaScript value: yields the
field when the value is an object that has it, otherwise `undefined`
(modelled as `none`). -/
def getField : Option Json → String → Option Json
  | some (Json.obj fields), key => fields.lookup key
  | _, _ => none

/-- JavaScript truthiness of a possibly-`undefined` JSON value:
`undefined`, `null`, `false`, `0` and `""` are falsy, everything else is
truthy. -/
def jsTruthy : Option Json → Bool
  | none => false
  | some Json.null => false
  | some (Json.bool b) => b
  | some (Json.num n) => n != 0
  | some (Json.str s) => s != ""
  | some (Json.arr _) => true
  | some (Json.obj _) => true

end Json

/-! ### JSON parsing (model of the platform `JSON.parse`) -/

/-- Skip JSON whitespace. -/
def skipWs : List Char → List Char
  | [] => []
  | c :: cs => if c = ' ' ∨ c = '\t' ∨ c = '\n' ∨ c = '\r' then skipWs cs else c :: cs

/-- Hex digit value, if any. -/
def hexVal? (c : Char) : Option Nat :=
  if '0' ≤ c ∧ c ≤ '9' then some (c.toNat - '0'.toNat)
  else if 'a' ≤ c ∧ c ≤ 'f' then some (c.toNat - 'a'.toNat + 10)
  else if 'A' ≤ c ∧ c ≤ 'F' then some (c.toNat - 'A'.toNat + 10)
  else none

/-- Parse the body of a JSON string literal (after the opening quote),
returning the decoded characters and the rest after the closing quote. -/
def parseStringBody : Nat → List Char → Option (List Char × List Char)
  | 0, _ => none
  | _ + 1, [] => none
  | fuel + 1, c :: cs =>
    if c = '"' then some ([], cs)
    else if c = '\\' then
      match cs with
      | [] => none
      | e :: cs' =>
        let decoded : Option (Char × List Char) :=
          if e = '"' then some ('"', cs')
          else if e = '\\' then some ('\\', cs')
          else if e = '/' then some ('/', cs')
          else if e = 'n' then some ('\n', cs')
          else if e = 't' then some ('\t', cs')
          else if e = 'r' then some ('\r', cs')
          else if e = 'b' then some ('\x08', cs')
          else if e = 'f' then some ('\x0c', cs')
          else if e = 'u' then
            match cs' with
            | h1 :: h2 :: h3 :: h4 :: rest =>
              match hexVal? h1, hexVal? h2, hexVal? h3, hexVal? h4 with
              | some v1, some v2, some v3, some v4 =>
                some (Char.ofNat (((v1 * 16 + v2) * 16 + v3) * 16 + v4), rest)
              | _, _, _, _ => none
            | _ => none
          else none
        match decoded with
        | some (d, rest) =>
          match parseStringBody fuel rest with
          | some (tail, rem) => some (d :: tail, rem)
          | none => none
        | none => none
    else
      match parseStringBody fuel cs with
      | some (tail, rem) => some (c :: tail, rem)
      | none => none

/-- Parse a run of decimal digits, returning their value, how many there
were, and the rest. -/
def parseDigits : Nat → List Char → Nat → Nat → (Nat × Nat × List Char)
  | 0, cs, acc, count => (acc, count, cs)
  | fuel + 1, cs, acc, count =>
    match cs with
    | c :: rest =>
      if '0' ≤ c ∧ c ≤ '9' then
        parseDigits fuel rest (acc * 10 + (c.toNat - '0'.toNat)) (count + 1)
      else (acc, count, cs)
    | [] => (acc, count, cs)

mutual

/-- Parse one JSON value.  Fuel-indexed recursive descent. -/
def parseValue : Nat → List Char → Option (Json × List Char)
  | 0, _ => none
  | fuel + 1, cs =>
    match skipWs cs with
    | [] => none
    | 'n' :: 'u' :: 'l' :: 'l' :: rest => some (Json.null, rest)
    | 't' :: 'r' :: 'u' :: 'e' :: rest => some (Json.bool true, rest)
    | 'f' :: 'a' :: 'l' :: 's' :: 'e' :: rest => some (Json.bool false, rest)
    | '"' :: rest =>
      match parseStringBody (rest.length + 1) rest with
      | some (chars, rem) => some (Json.str (String.mk chars), rem)
      | none => none
    | '[' :: rest =>
      (match skipWs rest with
       | ']' :: rem => some (Json.arr [], rem)
       | other =>
         match parseElems fuel other with
         | some (xs, rem) => some (Json.arr xs, rem)
         | none => none)
    | '{' :: rest =>
      (match skipWs rest with
       | '}' :: rem => some (Json.obj [], rem)
       | other =>
         match parseFields fuel other with
         | some (fs, rem) => some (Json.obj fs, rem)
         | none => none)
    | '-' :: rest =>
      (match parseNumber rest with
       | some (n, rem) => some (Json.num (-n), rem)
       | none => none)
    | c :: rest =>
      if '0' ≤ c ∧ c ≤ '9' then
        match parseNumber (c :: rest) with
        | some (n, rem) => some (Json.num n, rem)
        | none => none
      else none

/-- Parse a non-negative JSON number; a fractional or exponent part is
consumed but only the integer part is retained (see module comment). -/
def parseNumber (cs : List Char) : Option (Int × List Char) :=
  match parseDigits (cs.length + 1) cs 0 0 with
  | (_, 0, _) => none
  | (n, _ + 1, rest) =>
    let afterFrac :=
      match rest with
      | '.' :: frac =>
        (match parseDigits (frac.length + 1) frac 0 0 with
         | (_, 0, _) => none
         | (_, _ + 1, rem) => some rem)
      | _ => some rest
    match afterFrac with
    | none => none
    | some rest' =>
      match rest' with
      | e :: tail =>
        if e = 'e' ∨ e = 'E' then
          let tail' := match tail with
            | '+' :: t => t
            | '-' :: t => t
            | t => t
          match parseDigits (tail'.length + 1) tail' 0 0 with
          | (_, 0, _) => none
          | (_, _ + 1, rem) => some ((n : Int), rem)
        else some ((n : Int), rest')
      | [] => some ((n : Int), rest')

/-- Parse the comma-separated elements of a JSON array, up to `]`. -/
def parseElems : Nat → List Char → Option (List Json × List Char)
  | 0, _ => none
  | fuel + 1, cs =>
    match parseValue fuel cs with
    | none => none
    | some (v, rest) =>
      match skipWs rest with
      | ',' :: more =>
        (match parseElems fuel more with
         | some (xs, rem) => some (v :: xs, rem)
         | none => none)
      | ']' :: rem => some ([v], rem)
      | _ => none

/-- Parse the comma-separated `"key": value` fields of a JSON object, up
to `}`. -/
def parseFields : Nat → List Char → Option (List (String × Json) × List Char)
  | 0, _ => none
  | fuel + 1, cs =>
    match skipWs cs with
    | '"' :: rest =>
      (match parseStringBody (rest.length + 1) rest with
       | none => none
       | some (keyChars, afterKey) =>
         match skipWs afterKey with
         | ':' :: afterColon =>
           (match parseValue fuel afterColon with
            | none => none
            | some (v, rest') =>
              match skipWs rest' with
              | ',' :: more =>
                (match parseFields fuel more with
                 | some (fs, rem) => some ((String.mk keyChars, v) :: fs, rem)
                 | none => none)
              | '}' :: rem => some ([(String.mk keyChars, v)], rem)
              | _ => none)
         | _ => none)
    | _ => none

end

/-- Model of the platform `JSON.parse`: parses the whole string (allowing
trailing whitespace) or fails. -/
def jsonParse (s : String) : Option Json :=
  match parseValue (s.length + 1) s.toList with
  | some (v, rest) => if skipWs rest = [] then some v else none
  | none => none

/-! ### JSON serialization (model of the platform `JSON.stringify`) -/

/-- Lower-case hex digit for code points below 16. -/
def hexDigit (n : Nat) : Char :=
  if n < 10 then Char.ofNat ('0'.toNat + n) else Char.ofNat ('a'.toNat + n - 10)

/-- Escape one character of a JSON string literal, as `JSON.stringify`
does: quote, backslash and the named control escapes, then `\u00XX` for the
remaining control characters, everything else verbatim. -/
def escapeChar (c : Char) : String :=
  if c = '"' then "\\\""
  else if c = '\\' then "\\\\"
  else if c = '\n' then "\\n"
  else if c = '\t' then "\\t"
  else if c = '\r' then "\\r"
  else if c = '\x08' then "\\b"
  else if c = '\x0c' then "\\f"
  else if c.toNat < 32 then
    String.mk ['\\', 'u', '0', '0', hexDigit (c.toNat / 16), hexDigit (c.toNat % 16)]
  else String.mk [c]

/-- Serialize a JSON string literal with quotes and escapes. -/
def escapeString (s : String) : String :=
  "\"" ++ String.join (s.toList.map escapeChar) ++ "\""

mutual

/-- Model of `JSON.stringify` on defined JSON values.  (`undefined`-valued
object properties never reach this function: the request builders below
already omit them, mirroring `JSON.stringify`'s omission.) -/
def jsonStringify : Json → String
  | Json.null => "null"
  | Json.bool true => "true"
  | Json.bool false => "false"
  | Json.num n => toString n
  | Json.str s => escapeString s
  | Json.arr xs => "[" ++ stringifyElems xs ++ "]"
  | Json.obj fs => "\x7b" ++ stringifyFields fs ++ "\x7d"

/-- Comma-separated serialization of array elements. -/
def stringifyElems : List Json → String
  | [] => ""
  | [x] => jsonStringify x
  | x :: y :: rest => jsonStringify x ++ "," ++ stringifyElems (y :: rest)

/-- Comma-separated serialization of object fields. -/
def stringifyFields : List (String × Json) → String
  | [] => ""
  | [(k, v)] => escapeString k ++ ":" ++ jsonStringify v
  | (k, v) :: f :: rest =>
    escapeString k ++ ":" ++ jsonStringify v ++ "," ++ stringifyFields (f :: rest)

end

mutual

/-- JavaScript string coercion of a JSON value, as used by a template
literal: strings verbatim, numbers in base 10, `[object Object]` for
objects, comma-joined elements for arrays. -/
def jsToString : Json → String
  | Json.null => "null"
  | Json.bool true => "true"
  | Json.bool false => "false"
  | Json.num n => toString n
  | Json.str s => s
  | Json.arr xs => arrayToString xs
  | Json.obj _ => "[object Object]"

/-- `Array.prototype.toString`: elements coerced and comma-joined, with
`null` rendered as the empty string. -/
def arrayToString : List Json → String
  | [] => ""
  | [Json.null] => ""
  | [x] => jsToString x
  | Json.null :: y :: rest => "," ++ arrayToString (y :: rest)
  | x :: y :: rest => jsToString x ++ "," ++ arrayToString (y :: rest)

end

/-! ### The error model

The source signals every failure with a JavaScript `Error` carrying a
message string and an optional `cause` (src/index.ts lines 150-189).  The
`cause` is either the `errorDetails` object built for a non-success HTTP
response (lines 163-169) or the underlying error wrapped by the network
branch (line 188). -/

/-- The `cause` attached to an error thrown by `request`. -/
inductive Cause where
  /-- The `errorDetails` object of an API error: HTTP status, status text,
  request URL, extracted message, and the structured `error` payload when
  the parsed body carried a truthy one. -/
  | details (status : Nat) (statusText : String) (url : String)
      (message : String) (errorPayload : Option Json)
  /-- An underlying error wrapped by the network-error branch. -/
  | err (message : String) (cause : Option Cause)
deriving Repr

/-- A JavaScript `Error`: a message string and an optional cause. -/
structure JsError where
  message : String
  cause : Option Cause := none
deriving Repr

/-! ### The `request` pipeline (src/index.ts lines 115-190) -/

/-- A received HTTP response, as `fetch` resolves it: success flag, status
code and text, declared content type (`response.headers.get("content-type")`,
absent when the header is missing) and the body text.
`jsonErrorMessage` stands for the engine-specific message of the
`SyntaxError` thrown by `response.json()`; it is consulted only when the
content type claims JSON and the body fails to parse. -/
structure FetchResponse where
  ok : Bool
  status : Nat
  statusText : String
  contentType : Option String
  bodyText : String
  jsonErrorMessage : String := ""
deriving Repr

/-- The outcome of the `fetch` call itself: either the transport threw
before a response was received, or a response arrived. -/
inductive TransportOutcome where
  | fail (e : JsError)
  | resp (r : FetchResponse)

/-- Does the character list contain the needle as a contiguous
subsequence? -/
def containsSub (needle : List Char) : List Char → Bool
  | [] => needle.isPrefixOf []
  | c :: rest => needle.isPrefixOf (c :: rest) || containsSub needle rest

/-- JavaScript `String.prototype.includes`: substring containment. -/
def jsIncludes (s sub : String) : Bool :=
  containsSub sub.toList s.toList

/-- `contentType?.includes("application/json")` (line 133): true when the
declared content type is present and contains that substring. -/
def claimsJson : Option String → Bool
  | none => false
  | some s => jsIncludes s "application/json"

/-- Lines 135-153: obtain `data` (and `responseText`) from the response
body.  When the content type claims JSON, `response.json()` is used and a
parse failure becomes a `Failed to parse response: …` error; otherwise the
body is read as text, a JSON parse is attempted anyway, and on failure
`data` becomes `{error: {message: responseText}}`. -/
def responseData (r : FetchResponse) : Except JsError (Json × String) :=
  if claimsJson r.contentType then
    match jsonParse r.bodyText with
    | some d => Except.ok (d, "")
    | none =>
      Except.error ⟨"Failed to parse response: " ++ r.jsonErrorMessage, none⟩
  else
    let responseText := r.bodyText
    match jsonParse responseText with
    | some d => Except.ok (d, responseText)
    | none =>
      Except.ok
        (Json.obj [("error", Json.obj [("message", Json.str responseText)])],
         responseText)

/-- Lines 157-161: the error-message chain
`data?.error?.message || data?.message || responseText ||
\x60HTTP ${status}: ${statusText}\x60`, with JavaScript truthiness deciding
each step. -/
def extractErrorMessage (data : Json) (responseText : String)
    (status : Nat) (statusText : String) : String :=
  if Json.jsTruthy (Json.getField (Json.getField (some data) "error") "message") then
    jsToString ((Json.getField (Json.getField (some data) "error") "message").getD Json.null)
  else if Json.jsTruthy (Json.getField (some data) "message") then
    jsToString ((Json.getField (some data) "message").getD Json.null)
  else if responseText ≠ "" then responseText
  else "HTTP " ++ toString status ++ ": " ++ statusText

/-- Lines 155-173: the error thrown for a non-success HTTP status — the
`API request failed: …` message plus the `errorDetails` cause carrying
status, status text, URL, extracted message, and the body's `error`
payload when that payload is truthy. -/
def mkApiError (url : String) (r : FetchResponse) (data : Json)
    (responseText : String) : JsError :=
  let errorMessage := extractErrorMessage data responseText r.status r.statusText
  let errorField := Json.getField (some data) "error"
  let errorPayload := if Json.jsTruthy errorField then errorField else none
  ⟨"API request failed: " ++ errorMessage,
   some (Cause.details r.status r.statusText url errorMessage errorPayload)⟩

/-- Lines 131-176: the body of the `try` block once a response has been
received. -/
def tryBlock (url : String) (r : FetchResponse) : Except JsError Json :=
  match responseData r with
  | Except.error e => Except.error e
  | Except.ok (data, responseText) =>
    if r.ok then Except.ok data
    else Except.error (mkApiError url r data responseText)

/-- JavaScript `String.prototype.startsWith`: does `s` start with the code
units of `p`?  Modelled as a character-list prefix test. -/
def jsStartsWith (s p : String) : Bool :=
  p.toList.isPrefixOf s.toList

/-- Line 180-182: the caught error is recognized as one of `request`'s own
errors by matching its message text against two literal prefixes. -/
def isOwnError (e : JsError) : Bool :=
  jsStartsWith e.message "API request failed:" ||
  jsStartsWith e.message "Failed to parse response:"

/-- Lines 177-189: the `catch` handler — re-throw the error unchanged when
its message matches a known prefix, otherwise wrap it as
`Network error: …` with the original error as cause. -/
def handleCatch (e : JsError) : JsError :=
  if isOwnError e then e
  else ⟨"Network error: " ++ e.message, some (Cause.err e.message e.cause)⟩

/-- Line 119: the full request URL. -/
def buildUrl (baseUrl endpoint : String) : String :=
  baseUrl ++ "/api/v1" ++ endpoint

/-- Lines 115-190: the whole `request` routine as a function of the
transport outcome.  Every error thrown inside the `try` block — including
a transport failure — passes through the `catch` handler. -/
def request (url : String) : TransportOutcome → Except JsError Json
  | TransportOutcome.fail e => Except.error (handleCatch e)
  | TransportOutcome.resp r =>
    match tryBlock url r with
    | Except.ok v => Except.ok v
    | Except.error e => Except.error (handleCatch e)

/-! ### Resource operations -/

/-- The five HTTP verbs the schedule DTOs admit. -/
inductive HttpMethod where
  | GET | POST | PUT | DELETE | PATCH
deriving Repr, DecidableEq

/-- Wire form of an HTTP verb. -/
def HttpMethod.toWire : HttpMethod → String
  | GET => "GET"
  | POST => "POST"
  | PUT => "PUT"
  | DELETE => "DELETE"
  | PATCH => "PATCH"

/-- `CreateScheduleData` (src/index.ts lines 44-55): creation payload;
`headers` is a structured string-to-string mapping here, serialized to a
JSON string only on the wire. -/
structure CreateScheduleData where
  name : String
  description : Option String := none
  cronExpression : String
  timezone : String
  endpoint : String
  httpMethod : HttpMethod
  body : Option String := none
  headers : Option (List (String × String)) := none
  maxRetries : Option Int := none
  timeoutSeconds : Option Int := none
deriving Repr

/-- `UpdateScheduleData` (lines 57-68): all fields optional. -/
structure UpdateScheduleData where
  name : Option String := none
  description : Option String := none
  cronExpression : Option String := none
  timezone : Option String := none
  endpoint : Option String := none
  httpMethod : Option HttpMethod := none
  body : Option String := none
  headers : Option (List (String × String)) := none
  maxRetries : Option Int := none
  timeoutSeconds : Option Int := none
deriving Repr

/-- The HTTP request a method hands to `request`: endpoint path, method
and optional body string. -/
structure HttpRequest where
  endpoint : String
  method : String
  body : Option String := none
deriving Repr

/-- A structured header mapping serialized to its wire form: the
`JSON.stringify` of the mapping as a JSON object of string values. -/
def serializeHeaders (hs : List (String × String)) : String :=
  jsonStringify (Json.obj (hs.map fun kv => (kv.1, Json.str kv.2)))

/-- An optional object property after `JSON.stringify`'s treatment of
`undefined`: present exactly when the value is. -/
def optField (key : String) (o : Option Json) : List (String × Json) :=
  match o with
  | some v => [(key, v)]
  | none => []

/-- Lines 221-226 / 238-241: one create payload as the JSON object
`JSON.stringify` receives, i.e. `{...schedule, headers: schedule.headers ?
JSON.stringify(schedule.headers) : undefined}` with `JSON.stringify`'s
omission of `undefined`-valued properties applied: an optional property is
present exactly when the source value is, and `headers` is replaced by its
serialized string.  Fields appear in the interface's declaration order. -/
def createRequestData (d : CreateScheduleData) : Json :=
  Json.obj
    ([("name", Json.str d.name)]
     ++ optField "description" (d.description.map Json.str)
     ++ [("cronExpression", Json.str d.cronExpression),
         ("timezone", Json.str d.timezone),
         ("endpoint", Json.str d.endpoint),
         ("httpMethod", Json.str d.httpMethod.toWire)]
     ++ optField "body" (d.body.map Json.str)
     ++ optField "headers" (d.headers.map fun hs => Json.str (serializeHeaders hs))
     ++ optField "maxRetries" (d.maxRetries.map Json.num)
     ++ optField "timeoutSeconds" (d.timeoutSeconds.map Json.num))

/-- Lines 255-258: the update payload, with the same headers treatment as
creation. -/
def updateRequestData (d : UpdateScheduleData) : Json :=
  Json.obj
    (optField "name" (d.name.map Json.str)
     ++ optField "description" (d.description.map Json.str)
     ++ optField "cronExpression" (d.cronExpression.map Json.str)
     ++ optField "timezone" (d.timezone.map Json.str)
     ++ optField "endpoint" (d.endpoint.map Json.str)
     ++ optField "httpMethod" (d.httpMethod.map fun m => Json.str m.toWire)
     ++ optField "body" (d.body.map Json.str)
     ++ optField "headers" (d.headers.map fun hs => Json.str (serializeHeaders hs))
     ++ optField "maxRetries" (d.maxRetries.map Json.num)
     ++ optField "timeoutSeconds" (d.timeoutSeconds.map Json.num))

/-- The union argument of `createSchedule`
(`CreateScheduleData | CreateScheduleData[]`): `Array.isArray(data)` is
true exactly on the `array` constructor. -/
inductive CreateScheduleInput where
  | single (d : CreateScheduleData)
  | array (ds : List CreateScheduleData)

/-- Lines 205-249: `createSchedule`.  Dispatch is decided solely by
`Array.isArray(data)`.  Bulk inputs of length 0 or above 1000 throw a
local validation error before any request is built; otherwise the method
issues POST `/schedules/bulk` with the mapped payload array, and a single
payload issues POST `/schedules`. -/
def createSchedule : CreateScheduleInput → Except JsError HttpRequest
  | CreateScheduleInput.array ds =>
    if ds.length = 0 then
      Except.error ⟨"At least one schedule is required for bulk creation", none⟩
    else if ds.length > 1000 then
      Except.error ⟨"Cannot create more than 1000 schedules at once", none⟩
    else
      Except.ok
        ⟨"/schedules/bulk", "POST",
         some (jsonStringify (Json.arr (ds.map createRequestData)))⟩
  | CreateScheduleInput.single d =>
    Except.ok ⟨"/schedules", "POST", some (jsonStringify (createRequestData d))⟩

/-- Lines 251-268: `updateSchedule` issues PUT `/schedules/{id}` with the
re-serialized payload. -/
def updateSchedule (id : String) (d : UpdateScheduleData) : HttpRequest :=
  ⟨"/schedules/" ++ id, "PUT", some (jsonStringify (updateRequestData d))⟩

/-- Job status enumeration (lines 28, 72). -/
inductive JobStatus where
  | PENDING | RUNNING | SUCCESS | FAILED
deriving Repr, DecidableEq

/-- Wire form of a job status. -/
def JobStatus.toWire : JobStatus → String
  | PENDING => "PENDING"
  | RUNNING => "RUNNING"
  | SUCCESS => "SUCCESS"
  | FAILED => "FAILED"

/-- `GetJobsParams` (lines 70-75). -/
structure GetJobsParams where
  scheduleId : Option String := none
  status : Option JobStatus := none
  page : Option Int := none
  limit : Option Int := none
deriving Repr

/-- Lines 299-304: the `URLSearchParams` assembled by `getJobs`, as its
ordered key/value pairs.  Each `if (params.x)` guard is JavaScript
truthiness: an absent parameter, an empty `scheduleId` string, and a zero
`page` or `limit` all skip the `set` call.  Numbers are rendered with
`toString()`, i.e. base 10. -/
def getJobsSearchParams (params : GetJobsParams) : List (String × String) :=
  (match params.scheduleId with
   | some s => if s ≠ "" then [("scheduleId", s)] else []
   | none => [])
  ++ (match params.status with
      | some st => [("status", st.toWire)]
      | none => [])
  ++ (match params.page with
      | some n => if n ≠ 0 then [("page", toString n)] else []
      | none => [])
  ++ (match params.limit with
      | some n => if n ≠ 0 then [("limit", toString n)] else []
      | none => [])

/-- `URLSearchParams.toString()` for values made of unreserved characters:
`k=v` pairs joined by `&`. -/
def searchParamsToString (ps : List (String × String)) : String :=
  String.intercalate "&" (ps.map fun p => p.1 ++ "=" ++ p.2)

/-- Lines 306-307: the endpoint `getJobs` requests — `/jobs?…` when the
query string is nonempty (empty strings are falsy), bare `/jobs`
otherwise. -/
def getJobsEndpoint (params : GetJobsParams) : String :=
  let queryString := searchParamsToString (getJobsSearchParams params)
  if queryString ≠ "" then "/jobs?" ++ queryString else "/jobs"

/-- A sample creation payload used to instantiate universally quantified
statements. -/
def sampleCreate : CreateScheduleData :=
  { name := "Daily Health Check"
    cronExpression := "0 9 * * *"
    timezone := "UTC"
    endpoint := "https://api.example.com/health"
    httpMethod := HttpMethod.GET }

/-! ### Helper lemmas -/

theorem lookup_append {α β : Type} [BEq α] (l1 l2 : List (α × β)) (k : α) :
    (l1 ++ l2).lookup k = ((l1.lookup k).orElse fun _ => l2.lookup k) := by
  induction l1 with
  | nil => simp [List.lookup]
  | cons a l ih =>
    obtain ⟨a1, a2⟩ := a
    simp only [List.cons_append, List.lookup]
    cases h : k == a1 <;> simp [ih]

theorem optField_lookup (key k : String) (o : Option Json) :
    (optField key o).lookup k = if k == key then o else none := by
  cases o with
  | none => cases h : k == key <;> simp [optField, List.lookup, h]
  | some v => cases h : k == key <;> simp [optField, List.lookup, h]

set_option maxRecDepth 4000 in
theorem headers_create (d : CreateScheduleData) :
    Json.getField (some (createRequestData d)) "headers"
      = d.headers.map fun hs => Json.str (serializeHeaders hs) := by
  simp [Json.getField, createRequestData, lookup_append, optField_lookup, List.lookup]

set_option maxRecDepth 4000 in
theorem headers_update (d : UpdateScheduleData) :
    Json.getField (some (updateRequestData d)) "headers"
      = d.headers.map fun hs => Json.str (serializeHeaders hs) := by
  simp [Json.getField, updateRequestData, lookup_append, optField_lookup, List.lookup]

theorem jsStartsWith_api (m : String) :
    jsStartsWith ("API request failed: " ++ m) "API request failed:" = true := by
  simp [jsStartsWith, String.toList, String.data_append, List.isPrefixOf_iff_prefix]

theorem jsStartsWith_parse (m : String) :
    jsStartsWith ("Failed to parse response: " ++ m) "Failed to parse response:" = true := by
  simp [jsStartsWith, String.toList, String.data_append, List.isPrefixOf_iff_prefix]

theorem jsStartsWith_network (m : String) :
    jsStartsWith ("Network error: " ++ m) "Network error:" = true := by
  simp [jsStartsWith, String.toList, String.data_append, List.isPrefixOf_iff_prefix]

theorem network_not_api (m : String) :
    jsStartsWith ("Network error: " ++ m) "API request failed:" = false := by
  simp [jsStartsWith, String.toList, String.data_append, List.isPrefixOf]

theorem network_not_parse (m : String) :
    jsStartsWith ("Network error: " ++ m) "Failed to parse response:" = false := by
  simp [jsStartsWith, String.toList, String.data_append, List.isPrefixOf]

theorem parse_not_api (m : String) :
    jsStartsWith ("Failed to parse response: " ++ m) "API request failed:" = false := by
  simp [jsStartsWith, String.toList, String.data_append, List.isPrefixOf]

theorem parse_not_network (m : String) :
    jsStartsWith ("Failed to parse response: " ++ m) "Network error:" = false := by
  simp [jsStartsWith, String.toList, String.data_append, List.isPrefixOf]

theorem isOwnError_apiError (m : String) (c : Option Cause) :
    isOwnError ⟨"API request failed: " ++ m, c⟩ = true := by
  simp [isOwnError, jsStartsWith_api]

theorem isOwnError_parseError (m : String) (c : Option Cause) :
    isOwnError ⟨"Failed to parse response: " ++ m, c⟩ = true := by
  simp [isOwnError, jsStartsWith_parse]

theorem network_wrap_ne (m : String) (c c' : Option Cause) :
    (⟨"Network error: " ++ m, c⟩ : JsError) ≠ ⟨m, c'⟩ := by
  intro h
  have hm : "Network error: " ++ m = m := congrArg JsError.message h
  have := congrArg String.length hm
  rw [String.length_append] at this
  rw [show ("Network error: ".length) = 15 from rfl] at this
  omega

theorem request_apiError (url : String) (r : FetchResponse) (data : Json) (text : String)
    (hok : r.ok = false) (hdata : responseData r = Except.ok (data, text)) :
    request url (TransportOutcome.resp r) = Except.error (mkApiError url r data text) := by
  simp [request, tryBlock, hdata, hok, handleCatch, mkApiError, isOwnError_apiError]

/-! ### The claims -/

/-- C1 (counterexample): supplying `page: 0` does not put a `page` key in
the query string — `getJobs({page: 0})` assembles no search parameters at
all and requests bare `/jobs`, because `if (params.page)` is JavaScript
truthiness and `0` is falsy.  This refutes the claim that every supplied
value of `page` or `limit`, including 0, appears in the query string. -/
theorem C1_page_zero_omitted :
    getJobsSearchParams ⟨none, none, some 0, none⟩ = []
    ∧ getJobsEndpoint ⟨none, none, some 0, none⟩ = "/jobs" :=
  ⟨rfl, rfl⟩

/-- C1 (amended): the query of `getJobs` contains exactly the keys the
caller supplied with a JavaScript-truthy value — a nonempty `scheduleId`,
any `status`, a nonzero `page`, a nonzero `limit` — each rendered as its
literal value with numbers in base 10, and contains no other key. -/
theorem C1_query_exact_keys (p : GetJobsParams) :
    (∀ v, ("scheduleId", v) ∈ getJobsSearchParams p ↔ p.scheduleId = some v ∧ v ≠ "")
    ∧ (∀ v, ("status", v) ∈ getJobsSearchParams p ↔ ∃ st, p.status = some st ∧ v = st.toWire)
    ∧ (∀ v, ("page", v) ∈ getJobsSearchParams p ↔ ∃ n, p.page = some n ∧ n ≠ 0 ∧ v = toString n)
    ∧ (∀ v, ("limit", v) ∈ getJobsSearchParams p ↔ ∃ n, p.limit = some n ∧ n ≠ 0 ∧ v = toString n)
    ∧ (∀ kv, kv ∈ getJobsSearchParams p →
        kv.1 = "scheduleId" ∨ kv.1 = "status" ∨ kv.1 = "page" ∨ kv.1 = "limit") := by
  obtain ⟨sid, st, pg, lim⟩ := p
  cases sid <;> cases st <;> cases pg <;> cases lim <;> simp [getJobsSearchParams] <;> aesop

/-- C1 (witness): on `{scheduleId: "abc", page: 2, limit: 50}` the
supplied keys are all present with their literal values. -/
theorem C1_query_exact_keys_witness :
    ("scheduleId", "abc") ∈ getJobsSearchParams ⟨some "abc", none, some 2, some 50⟩
    ∧ ("page", "2") ∈ getJobsSearchParams ⟨some "abc", none, some 2, some 50⟩
    ∧ ("limit", "50") ∈ getJobsSearchParams ⟨some "abc", none, some 2, some 50⟩ :=
  ⟨((C1_query_exact_keys ⟨some "abc", none, some 2, some 50⟩).1 "abc").mpr
      ⟨rfl, by decide⟩,
   ((C1_query_exact_keys ⟨some "abc", none, some 2, some 50⟩).2.2.1 "2").mpr
      ⟨2, rfl, by decide, by decide⟩,
   ((C1_query_exact_keys ⟨some "abc", none, some 2, some 50⟩).2.2.2.1 "50").mpr
      ⟨50, rfl, by decide, by decide⟩⟩

/-- C2 (counterexample): a response whose body is unparseable as JSON does
NOT always produce a parse-failure error.  With content type `text/plain`
and unparseable body `"oops"`, a 200 response resolves successfully with
the synthesized `{error: {message: "oops"}}` value, and a 502 response
produces an API error, not a parse error.  This refutes "regardless of the
declared content type and of the HTTP status". -/
theorem C2_nonjson_no_parse_error :
    jsonParse "oops" = none
    ∧ request "u" (TransportOutcome.resp ⟨true, 200, "OK", some "text/plain", "oops", ""⟩)
        = Except.ok (Json.obj [("error", Json.obj [("message", Json.str "oops")])])
    ∧ jsonParse "down" = none
    ∧ request "u" (TransportOutcome.resp ⟨false, 502, "Bad Gateway", some "text/plain", "down", ""⟩)
        = Except.error ⟨"API request failed: down",
            some (Cause.details 502 "Bad Gateway" "u" "down"
              (some (Json.obj [("message", Json.str "down")])))⟩ :=
  ⟨rfl, rfl, rfl, rfl⟩

/-- C2 (amended): when the declared content type claims JSON and the body
fails to parse, `request` produces the distinct parse-failure error for
every HTTP status, and that error is neither an API error nor a network
error; when the content type does not claim JSON, an unparseable body
never yields a parse-failure error — any error produced is an API error. -/
theorem C2_parse_failure_scope (url : String) (r : FetchResponse) :
    (claimsJson r.contentType = true → jsonParse r.bodyText = none →
      request url (TransportOutcome.resp r)
        = Except.error ⟨"Failed to parse response: " ++ r.jsonErrorMessage, none⟩
      ∧ jsStartsWith ("Failed to parse response: " ++ r.jsonErrorMessage)
          "Failed to parse response:" = true
      ∧ jsStartsWith ("Failed to parse response: " ++ r.jsonErrorMessage)
          "API request failed:" = false
      ∧ jsStartsWith ("Failed to parse response: " ++ r.jsonErrorMessage)
          "Network error:" = false)
    ∧ (claimsJson r.contentType = false → ∀ e,
        request url (TransportOutcome.resp r) = Except.error e →
        jsStartsWith e.message "API request failed:" = true) := by
  constructor
  · intro h1 h2
    refine ⟨?_, jsStartsWith_parse _, parse_not_api _, parse_not_network _⟩
    simp [request, tryBlock, responseData, h1, h2, handleCatch, isOwnError_parseError]
  · intro h1 e he
    simp only [request, tryBlock, responseData, h1] at he
    by_cases hok : r.ok
    · cases hp : jsonParse r.bodyText <;> simp [hp, hok] at he
    · cases hp : jsonParse r.bodyText <;>
        simp [hp, hok, handleCatch, mkApiError, isOwnError_apiError] at he <;>
        (rw [← he]; exact jsStartsWith_api _)

/-- C2 (witness): a JSON-typed 200 response with unparseable body
`"not json"` yields the parse-failure error. -/
theorem C2_parse_failure_scope_witness :
    claimsJson (some "application/json") = true
    ∧ jsonParse "not json" = none
    ∧ request "u" (TransportOutcome.resp
        ⟨true, 200, "OK", some "application/json", "not json", "Unexpected token"⟩)
        = Except.error ⟨"Failed to parse response: Unexpected token", none⟩ :=
  ⟨by decide, rfl,
   ((C2_parse_failure_scope "u"
      ⟨true, 200, "OK", some "application/json", "not json", "Unexpected token"⟩).1
      (by decide) rfl).1⟩

/-- C3: `createSchedule` routes a single payload to POST `/schedules` and
an array payload — of any length the local validation admits, including
length 1 — to POST `/schedules/bulk`; the dispatch is decided solely by
which constructor of the union argument is present (`Array.isArray`), with
no explicit flag. -/
theorem C3_dispatch_by_shape :
    (∀ d, createSchedule (CreateScheduleInput.single d)
      = Except.ok ⟨"/schedules", "POST", some (jsonStringify (createRequestData d))⟩)
    ∧ (∀ ds : List CreateScheduleData, 1 ≤ ds.length → ds.length ≤ 1000 →
        createSchedule (CreateScheduleInput.array ds)
          = Except.ok ⟨"/schedules/bulk", "POST",
              some (jsonStringify (Json.arr (ds.map createRequestData)))⟩) := by
  constructor
  · intro d; rfl
  · intro ds h1 h2
    rw [createSchedule, if_neg (by omega), if_neg (by omega)]

/-- C3 (witness): a single sample payload goes to `/schedules`; the
singleton array of the same payload goes to `/schedules/bulk`. -/
theorem C3_dispatch_by_shape_witness :
    createSchedule (CreateScheduleInput.single sampleCreate)
      = Except.ok ⟨"/schedules", "POST", some (jsonStringify (createRequestData sampleCreate))⟩
    ∧ createSchedule (CreateScheduleInput.array [sampleCreate])
      = Except.ok ⟨"/schedules/bulk", "POST",
          some (jsonStringify (Json.arr [createRequestData sampleCreate]))⟩ :=
  ⟨C3_dispatch_by_shape.1 sampleCreate,
   C3_dispatch_by_shape.2 [sampleCreate] (by decide) (by decide)⟩

/-- C4: `createSchedule` on an empty array and on an array of 1001
elements each returns a local validation error — in this model the
`Except.error` is produced before any `HttpRequest` is constructed, so no
network call is attempted — and both error messages are distinct from the
three server-originated categories (they match neither the API-error nor
the parse-failure prefix that `request`'s own errors carry, nor the
network-error prefix). -/
theorem C4_local_validation :
    createSchedule (CreateScheduleInput.array [])
      = Except.error ⟨"At least one schedule is required for bulk creation", none⟩
    ∧ createSchedule (CreateScheduleInput.array (List.replicate 1001 sampleCreate))
      = Except.error ⟨"Cannot create more than 1000 schedules at once", none⟩
    ∧ isOwnError ⟨"At least one schedule is required for bulk creation", none⟩ = false
    ∧ jsStartsWith "At least one schedule is required for bulk creation"
        "Network error:" = false
    ∧ isOwnError ⟨"Cannot create more than 1000 schedules at once", none⟩ = false
    ∧ jsStartsWith "Cannot create more than 1000 schedules at once"
        "Network error:" = false := by
  refine ⟨rfl, ?_, by decide, by decide, by decide, by decide⟩
  rw [createSchedule]
  rw [if_neg (by rw [List.length_replicate]; omega), if_pos (by rw [List.length_replicate]; omega)]

/-- C5: every transmitted create or update body carries a `headers` field
equal to the `JSON.stringify` of the supplied mapping exactly when a
mapping was supplied, and no `headers` field at all when none was; the
single, bulk and update request bodies are the serializations of these
objects (bulk elements each pass through `createRequestData`). -/
theorem C5_headers_serialization :
    (∀ d hs, d.headers = some hs →
      Json.getField (some (createRequestData d)) "headers"
        = some (Json.str (serializeHeaders hs)))
    ∧ (∀ d, d.headers = none →
        Json.getField (some (createRequestData d)) "headers" = none)
    ∧ (∀ u hs, u.headers = some hs →
        Json.getField (some (updateRequestData u)) "headers"
          = some (Json.str (serializeHeaders hs)))
    ∧ (∀ u, u.headers = none →
        Json.getField (some (updateRequestData u)) "headers" = none)
    ∧ (∀ d, createSchedule (CreateScheduleInput.single d)
        = Except.ok ⟨"/schedules", "POST", some (jsonStringify (createRequestData d))⟩)
    ∧ (∀ id u, updateSchedule id u
        = ⟨"/schedules/" ++ id, "PUT", some (jsonStringify (updateRequestData u))⟩)
    ∧ (∀ ds : List CreateScheduleData, 1 ≤ ds.length → ds.length ≤ 1000 →
        createSchedule (CreateScheduleInput.array ds)
          = Except.ok ⟨"/schedules/bulk", "POST",
              some (jsonStringify (Json.arr (ds.map createRequestData)))⟩) := by
  refine ⟨?_, ?_, ?_, ?_, fun d => rfl, fun id u => rfl, ?_⟩
  · intro d hs h; rw [headers_create, h]; rfl
  · intro d h; rw [headers_create, h]; rfl
  · intro u hs h; rw [headers_update, h]; rfl
  · intro u h; rw [headers_update, h]; rfl
  · intro ds h1 h2
    rw [createSchedule, if_neg (by omega), if_neg (by omega)]

/-- C5 (witness): a payload with headers `{"X-Api": "k"}` transmits
`headers` as that mapping's serialization; the sample payload without
headers transmits no `headers` field; likewise for an update payload. -/
theorem C5_headers_serialization_witness :
    Json.getField
      (some (createRequestData { sampleCreate with headers := some [("X-Api", "k")] }))
      "headers" = some (Json.str (serializeHeaders [("X-Api", "k")]))
    ∧ Json.getField (some (createRequestData sampleCreate)) "headers" = none
    ∧ Json.getField
        (some (updateRequestData { headers := some [("X-Api", "k")] }))
        "headers" = some (Json.str (serializeHeaders [("X-Api", "k")]))
    ∧ Json.getField (some (updateRequestData {})) "headers" = none
    ∧ serializeHeaders [("X-Api", "k")] = "\x7b\"X-Api\":\"k\"\x7d" :=
  ⟨C5_headers_serialization.1 _ [("X-Api", "k")] rfl,
   C5_headers_serialization.2.1 sampleCreate rfl,
   C5_headers_serialization.2.2.1 _ [("X-Api", "k")] rfl,
   C5_headers_serialization.2.2.2.1 {} rfl,
   rfl⟩

/-- C6: every non-success response whose body stage succeeded yields a
structured API error carrying the HTTP status, status text and request
URL, whose message is chosen in strict priority order — (a) the parsed
body's `error.message`, (b) its `message`, (c) the raw response text,
(d) the synthesized `HTTP <code>: <text>` — with each step taken when it
is JavaScript-truthy, and with the body's structured `error` payload
attached whenever it is truthy. -/
theorem C6_api_error_structure (url : String) (r : FetchResponse) (data : Json)
    (responseText : String) (hok : r.ok = false)
    (hdata : responseData r = Except.ok (data, responseText)) :
    request url (TransportOutcome.resp r)
      = Except.error
          ⟨"API request failed: "
             ++ extractErrorMessage data responseText r.status r.statusText,
           some (Cause.details r.status r.statusText url
             (extractErrorMessage data responseText r.status r.statusText)
             (if Json.jsTruthy (Json.getField (some data) "error") then
                Json.getField (some data) "error"
              else none))⟩
    ∧ (∀ s, Json.getField (Json.getField (some data) "error") "message" = some (Json.str s) →
        s ≠ "" → extractErrorMessage data responseText r.status r.statusText = s)
    ∧ (Json.jsTruthy (Json.getField (Json.getField (some data) "error") "message") = false →
        ∀ s, Json.getField (some data) "message" = some (Json.str s) → s ≠ "" →
          extractErrorMessage data responseText r.status r.statusText = s)
    ∧ (Json.jsTruthy (Json.getField (Json.getField (some data) "error") "message") = false →
        Json.jsTruthy (Json.getField (some data) "message") = false →
        responseText ≠ "" →
        extractErrorMessage data responseText r.status r.statusText = responseText)
    ∧ (Json.jsTruthy (Json.getField (Json.getField (some data) "error") "message") = false →
        Json.jsTruthy (Json.getField (some data) "message") = false →
        responseText = "" →
        extractErrorMessage data responseText r.status r.statusText
          = "HTTP " ++ toString r.status ++ ": " ++ r.statusText) := by
  refine ⟨?_, ?_, ?_, ?_, ?_⟩
  · simp [request, tryBlock, hdata, hok, handleCatch, mkApiError, isOwnError_apiError]
  · intro s hs hne
    unfold extractErrorMessage
    rw [hs]
    simp [Json.jsTruthy, hne, jsToString]
  · intro hfa s hs hne
    unfold extractErrorMessage
    rw [hfa, hs]
    simp [Json.jsTruthy, hne, jsToString]
  · intro hfa hfb hne
    unfold extractErrorMessage
    rw [hfa, hfb]
    simp [hne]
  · intro hfa hfb he
    unfold extractErrorMessage
    rw [hfa, hfb, he]
    simp

/-- C6 (witness): a 404 with body
`{"error":{"message":"not found","code":"NOT_FOUND"}}` yields the message
"not found" (composed as "API request failed: not found") and attaches the
payload exposing code "NOT_FOUND", together with status 404, status text
and the request URL. -/
theorem C6_api_error_structure_witness :
    (⟨false, 404, "Not Found", some "application/json",
       "\x7b\"error\":\x7b\"message\":\"not found\",\"code\":\"NOT_FOUND\"\x7d\x7d",
       ""⟩ : FetchResponse).ok = false
    ∧ responseData
        ⟨false, 404, "Not Found", some "application/json",
         "\x7b\"error\":\x7b\"message\":\"not found\",\"code\":\"NOT_FOUND\"\x7d\x7d", ""⟩
        = Except.ok
            (Json.obj [("error", Json.obj [("message", Json.str "not found"),
              ("code", Json.str "NOT_FOUND")])], "")
    ∧ request "https://cronho.st/api/v1/schedules/abc"
        (TransportOutcome.resp
          ⟨false, 404, "Not Found", some "application/json",
           "\x7b\"error\":\x7b\"message\":\"not found\",\"code\":\"NOT_FOUND\"\x7d\x7d", ""⟩)
        = Except.error
            ⟨"API request failed: not found",
             some (Cause.details 404 "Not Found" "https://cronho.st/api/v1/schedules/abc"
               "not found"
               (some (Json.obj [("message", Json.str "not found"),
                 ("code", Json.str "NOT_FOUND")])))⟩ :=
  ⟨rfl, rfl,
   (C6_api_error_structure "https://cronho.st/api/v1/schedules/abc"
      ⟨false, 404, "Not Found", some "application/json",
       "\x7b\"error\":\x7b\"message\":\"not found\",\"code\":\"NOT_FOUND\"\x7d\x7d", ""⟩
      (Json.obj [("error", Json.obj [("message", Json.str "not found"),
        ("code", Json.str "NOT_FOUND")])])
      "" rfl rfl).1⟩

/-- C7 (counterexample): a non-JSON content type with a JSON body does NOT
always behave exactly as if the content type had been JSON.  For a 500
response with body `{"a":1}` (valid JSON carrying no message field), the
`text/plain` variant reports the raw body text as the error message while
the `application/json` variant reports the synthesized `HTTP 500: …`
message. -/
theorem C7_not_exactly_as_json :
    jsonParse "\x7b\"a\":1\x7d" = some (Json.obj [("a", Json.num 1)])
    ∧ request "u" (TransportOutcome.resp
        ⟨false, 500, "Internal Server Error", some "text/plain", "\x7b\"a\":1\x7d", ""⟩)
        = Except.error ⟨"API request failed: \x7b\"a\":1\x7d",
            some (Cause.details 500 "Internal Server Error" "u" "\x7b\"a\":1\x7d" none)⟩
    ∧ request "u" (TransportOutcome.resp
        ⟨false, 500, "Internal Server Error", some "application/json", "\x7b\"a\":1\x7d", ""⟩)
        = Except.error ⟨"API request failed: HTTP 500: Internal Server Error",
            some (Cause.details 500 "Internal Server Error" "u"
              "HTTP 500: Internal Server Error" none)⟩ :=
  ⟨rfl, rfl, rfl⟩

/-- C7 (amended): when the declared content type does not claim JSON but
the body text parses as JSON, the parsed value is used: it is returned
as-is on success (exactly as with a JSON content type), it drives the
error-message extraction on failure, and the failure behaviour coincides
with the JSON-content-type behaviour whenever the parsed body supplies a
truthy `error.message` or `message`; only the raw-text fallback step can
differ. -/
theorem C7_text_json_parsed (url : String) (r : FetchResponse) (d : Json)
    (hct : claimsJson r.contentType = false) (hp : jsonParse r.bodyText = some d) :
    responseData r = Except.ok (d, r.bodyText)
    ∧ (r.ok = true → request url (TransportOutcome.resp r) = Except.ok d)
    ∧ (r.ok = true →
        request url (TransportOutcome.resp { r with contentType := some "application/json" })
          = Except.ok d)
    ∧ (r.ok = false →
        request url (TransportOutcome.resp r)
          = Except.error (mkApiError url r d r.bodyText))
    ∧ (r.ok = false →
        (Json.jsTruthy (Json.getField (Json.getField (some d) "error") "message") = true ∨
         Json.jsTruthy (Json.getField (some d) "message") = true) →
        request url (TransportOutcome.resp { r with contentType := some "application/json" })
          = request url (TransportOutcome.resp r)) := by
  have hctj : claimsJson (some "application/json") = true := by decide
  have hdata : responseData r = Except.ok (d, r.bodyText) := by
    simp [responseData, hct, hp]
  refine ⟨hdata, ?_, ?_, ?_, ?_⟩
  · intro hok
    simp [request, tryBlock, hdata, hok]
  · intro hok
    simp [request, tryBlock, responseData, hctj, hp, hok]
  · intro hok
    exact request_apiError url r d r.bodyText hok hdata
  · intro hok hmsg
    have hext : extractErrorMessage d "" r.status r.statusText
        = extractErrorMessage d r.bodyText r.status r.statusText := by
      rcases hmsg with h | h
      · unfold extractErrorMessage
        rw [h]
        simp
      · unfold extractErrorMessage
        by_cases ha : Json.jsTruthy
            (Json.getField (Json.getField (some d) "error") "message") = true
        · simp [ha]
        · rw [Bool.not_eq_true] at ha
          simp [ha, h]
    have hdata' : responseData { r with contentType := some "application/json" }
        = Except.ok (d, "") := by
      simp [responseData, hctj, hp]
    rw [request_apiError url _ d "" (by simpa using hok) hdata',
        request_apiError url r d r.bodyText hok hdata]
    simp [mkApiError, hext]

/-- C7 (witness): a 200 `text/plain` response with body `{"ok":true}` is
parsed as JSON and returned as the parsed object. -/
theorem C7_text_json_parsed_witness :
    claimsJson (some "text/plain") = false
    ∧ jsonParse "\x7b\"ok\":true\x7d" = some (Json.obj [("ok", Json.bool true)])
    ∧ request "u" (TransportOutcome.resp
        ⟨true, 200, "OK", some "text/plain", "\x7b\"ok\":true\x7d", ""⟩)
        = Except.ok (Json.obj [("ok", Json.bool true)]) :=
  ⟨by decide, rfl,
   ((C7_text_json_parsed "u"
      ⟨true, 200, "OK", some "text/plain", "\x7b\"ok\":true\x7d", ""⟩
      (Json.obj [("ok", Json.bool true)]) (by decide) rfl).2.1 rfl)⟩

/-- C8 (counterexample): not every transport failure is wrapped as a
network error — a transport failure whose own message begins with
"API request failed:" is re-thrown unchanged, without the network-error
wrapper.  This refutes the universal claim. -/
theorem C8_spoofed_message_unwrapped :
    request "u" (TransportOutcome.fail
        ⟨"API request failed: spoofed transport failure", none⟩)
      = Except.error ⟨"API request failed: spoofed transport failure", none⟩
    ∧ jsStartsWith "API request failed: spoofed transport failure" "Network error:" = false :=
  ⟨rfl, by decide⟩

/-- C8 (amended): every transport failure whose message does not begin
with "API request failed:" or "Failed to parse response:" is wrapped as a
distinct network error — its message gains the "Network error: " prefix,
the underlying failure becomes its cause, and the resulting message
matches neither the API-error nor the parse-failure prefix. -/
theorem C8_network_error_wraps (url : String) (e : JsError)
    (h1 : jsStartsWith e.message "API request failed:" = false)
    (h2 : jsStartsWith e.message "Failed to parse response:" = false) :
    request url (TransportOutcome.fail e)
      = Except.error ⟨"Network error: " ++ e.message, some (Cause.err e.message e.cause)⟩
    ∧ jsStartsWith ("Network error: " ++ e.message) "Network error:" = true
    ∧ jsStartsWith ("Network error: " ++ e.message) "API request failed:" = false
    ∧ jsStartsWith ("Network error: " ++ e.message) "Failed to parse response:" = false := by
  have h : isOwnError e = false := by simp [isOwnError, h1, h2]
  exact ⟨by simp [request, handleCatch, h], jsStartsWith_network _, network_not_api _,
    network_not_parse _⟩

/-- C8 (witness): a DNS failure is wrapped as "Network error:
getaddrinfo ENOTFOUND cronho.st" with the original failure as cause. -/
theorem C8_network_error_wraps_witness :
    jsStartsWith "getaddrinfo ENOTFOUND cronho.st" "API request failed:" = false
    ∧ jsStartsWith "getaddrinfo ENOTFOUND cronho.st" "Failed to parse response:" = false
    ∧ (request "u" (TransportOutcome.fail ⟨"getaddrinfo ENOTFOUND cronho.st", none⟩)
        = Except.error ⟨"Network error: " ++ "getaddrinfo ENOTFOUND cronho.st",
            some (Cause.err "getaddrinfo ENOTFOUND cronho.st" none)⟩
      ∧ jsStartsWith ("Network error: " ++ "getaddrinfo ENOTFOUND cronho.st")
          "Network error:" = true
      ∧ jsStartsWith ("Network error: " ++ "getaddrinfo ENOTFOUND cronho.st")
          "API request failed:" = false
      ∧ jsStartsWith ("Network error: " ++ "getaddrinfo ENOTFOUND cronho.st")
          "Failed to parse response:" = false) :=
  ⟨by decide, by decide,
   C8_network_error_wraps "u" ⟨"getaddrinfo ENOTFOUND cronho.st", none⟩
     (by decide) (by decide)⟩

/-- C9: inside the catch handler, a caught error is re-thrown unchanged
exactly when its message starts with "API request failed:" or
"Failed to parse response:", and every other caught transport failure is
wrapped as a network error; consequently a transport failure whose message
spoofs one of those prefixes propagates without the network-error
wrapper. -/
theorem C9_rethrow_iff (url : String) (e : JsError) :
    (request url (TransportOutcome.fail e) = Except.error e ↔
      (jsStartsWith e.message "API request failed:" = true ∨
       jsStartsWith e.message "Failed to parse response:" = true))
    ∧ (jsStartsWith e.message "API request failed:" = false →
       jsStartsWith e.message "Failed to parse response:" = false →
       request url (TransportOutcome.fail e)
         = Except.error ⟨"Network error: " ++ e.message,
             some (Cause.err e.message e.cause)⟩) := by
  obtain ⟨m, c⟩ := e
  by_cases hown : isOwnError ⟨m, c⟩ = true
  · have hor := hown
    simp only [isOwnError, Bool.or_eq_true] at hor
    constructor
    · simp [request, handleCatch, hown, hor]
    · intro h1 h2
      simp [isOwnError, h1, h2] at hown
  · have hor := hown
    simp only [isOwnError, Bool.or_eq_true, not_or, Bool.not_eq_true] at hor
    rw [Bool.not_eq_true] at hown
    constructor
    · rw [request]
      simp only [handleCatch, hown, if_false, Bool.false_eq_true]
      constructor
      · intro heq
        have := Except.error.inj heq
        exact absurd this (network_wrap_ne m (some (Cause.err m c)) c)
      · intro hcon
        rcases hcon with h | h
        · rw [hor.1] at h; exact absurd h (by simp)
        · rw [hor.2] at h; exact absurd h (by simp)
    · intro h1 h2
      simp [request, handleCatch, hown]

/-- C9 (witness): a transport failure whose message spoofs the API-error
prefix is propagated unchanged. -/
theorem C9_rethrow_iff_witness :
    request "u" (TransportOutcome.fail ⟨"API request failed: spoofed DNS failure", none⟩)
      = Except.error ⟨"API request failed: spoofed DNS failure", none⟩ :=
  (C9_rethrow_iff "u" ⟨"API request failed: spoofed DNS failure", none⟩).1.mpr
    (Or.inl (by decide))

/-- C10: a success response whose content type does not claim JSON and
whose body is not valid JSON raises no error: `request` resolves with the
synthesized `{error: {message: <raw body text>}}` value, which carries no
`data` field for a typed caller to unwrap. -/
theorem C10_success_opaque_body (url : String) (r : FetchResponse)
    (hok : r.ok = true) (hct : claimsJson r.contentType = false)
    (hparse : jsonParse r.bodyText = none) :
    request url (TransportOutcome.resp r)
      = Except.ok (Json.obj [("error", Json.obj [("message", Json.str r.bodyText)])])
    ∧ Json.getField
        (some (Json.obj [("error", Json.obj [("message", Json.str r.bodyText)])])) "data"
      = none := by
  constructor
  · simp [request, tryBlock, responseData, hct, hparse, hok]
  · simp [Json.getField, List.lookup]

/-- C10 (witness): a 200 `text/html` response with the opaque body
"upstream maintenance" resolves successfully with the synthesized
envelope and no `data` field. -/
theorem C10_success_opaque_body_witness :
    (⟨true, 200, "OK", some "text/html", "upstream maintenance", ""⟩ : FetchResponse).ok = true
    ∧ claimsJson (some "text/html") = false
    ∧ jsonParse "upstream maintenance" = none
    ∧ (request "u" (TransportOutcome.resp
          ⟨true, 200, "OK", some "text/html", "upstream maintenance", ""⟩)
        = Except.ok (Json.obj [("error",
            Json.obj [("message", Json.str "upstream maintenance")])])
      ∧ Json.getField
          (some (Json.obj [("error",
            Json.obj [("message", Json.str "upstream maintenance")])])) "data"
        = none) :=
  ⟨rfl, by decide, rfl,
   C10_success_opaque_body "u"
     ⟨true, 200, "OK", some "text/html", "upstream maintenance", ""⟩
     rfl (by decide) rfl⟩

end Cronhost
